import Mathlib

/-!
Verification of the order fulfillment and billing reconciliation logic of the
multivendor-restaurant repository.

Numbers are modelled as exact rationals; `Number(v.toFixed(2))` is modelled as
rounding to 2 decimal places, half away from zero, as the design prescribes.
Dynamically-typed raw JSON fields are modelled by `RawNum`: a field is either
absent (`missing`), present but not parseable to a finite number (`invalid`,
the NaN outcome), or a finite number (`val q`).
-/

/-- Round half away from zero to the nearest integer
(the rounding used by `toFixed` on exact decimal values). -/
def roundHalfAway (q : ℚ) : ℤ :=
  if 0 ≤ q then ⌊q + 1/2⌋ else -⌊(-q) + 1/2⌋

/-- `roundCurrency` from `OrderManagement.tsx`:
`Number.isFinite(value) ? Number(value.toFixed(2)) : 0`.
On rationals every value is finite, so this is rounding to 2 decimals. -/
def roundCurrency (q : ℚ) : ℚ :=
  (roundHalfAway (q * 100) : ℚ) / 100

/-- Outcome of reading a dynamically-typed numeric field of a raw line item. -/
inductive RawNum where
  | missing
  | invalid
  | val (q : ℚ)
deriving DecidableEq

/-- A stored raw line item, as consumed by the item reconcilers.
(Addon lists and identifier fields are not consulted by any of the
properties below and are omitted.) -/
structure RawItem where
  name : Option String
  quantity : RawNum
  price : RawNum
  basePrice : RawNum
  unitPrice : RawNum
  subtotal : RawNum
  gstRate : RawNum
  gstMode : Option String
  subtotalWithGst : RawNum
  lineTotal : RawNum
  total : RawNum
  gstAmount : RawNum
deriving DecidableEq

/-- A raw item with every field absent; concrete items are built from it. -/
def emptyRaw : RawItem :=
  { name := none, quantity := .missing, price := .missing, basePrice := .missing
    unitPrice := .missing, subtotal := .missing, gstRate := .missing
    gstMode := none, subtotalWithGst := .missing, lineTotal := .missing
    total := .missing, gstAmount := .missing }

/-- A menu category used as tax-default fallback (`MenuCategory` fields
consulted by `parseOrderItems`). -/
structure CatDefault where
  gstRate : RawNum
  gstMode : Option String
deriving DecidableEq

/-- GST mode of a canonical line item. -/
inductive GstMode where
  | incl
  | excl
deriving DecidableEq

/-- The string stored in the `gstMode` field for each mode. -/
def gstModeString : GstMode → String
  | .incl => "include"
  | .excl => "exclude"

/-- `item.name || "Item"` — an absent or empty name falls back to `"Item"`. -/
def resolveName (n : Option String) : String :=
  match n with
  | some s => if s = "" then "Item" else s
  | none => "Item"

/-- `Number(item.quantity ?? 1)` guarded by `Number.isFinite && > 0`,
defaulting to 1. -/
def resolveQuantity (r : RawNum) : ℚ :=
  match r with
  | .val q => if 0 < q then q else 1
  | _ => 1

/-- First finite value among the candidates `[price, basePrice, unitPrice]`,
defaulting to 0 (absent candidates are skipped, unparseable ones parse to NaN
and are also skipped). -/
def resolveUnitPrice (p bp up : RawNum) : ℚ :=
  match p with
  | .val q => q
  | _ =>
    match bp with
    | .val q => q
    | _ =>
      match up with
      | .val q => q
      | _ => 0

/-- `parseFloat(String(item.subtotal ?? ""))`, falling back to
`unitPrice × quantity` when not finite, then rounded. -/
def resolveBaseSubtotal (sub : RawNum) (unit qty : ℚ) : ℚ :=
  match sub with
  | .val q => roundCurrency q
  | _ => roundCurrency (unit * qty)

/-- `normalizeRateValue` from `OrderManagement.tsx`: non-finite or
non-positive rates become 0, others are rounded to 2 decimals. -/
def normalizeRateValue (r : RawNum) : ℚ :=
  match r with
  | .val q => if q ≤ 0 then 0 else roundCurrency q
  | _ => 0

/-- GST-rate resolution of `parseOrderItems`: the item rate, replaced by the
category default when the item rate is 0 and the category rate is positive. -/
def resolveGstRate (cat : Option CatDefault) (r : RawNum) : ℚ :=
  let rate := normalizeRateValue r
  match cat with
  | some c =>
    if rate = 0 ∧ 0 < normalizeRateValue c.gstRate then normalizeRateValue c.gstRate
    else rate
  | none => rate

/-- GST-mode resolution of `parseOrderItems`: explicit `"include"`/`"exclude"`
wins, then the category default mode, then `exclude`. -/
def resolveGstMode (cat : Option CatDefault) (m : Option String) : GstMode :=
  if m = some "include" then .incl
  else if m = some "exclude" then .excl
  else
    match cat with
    | some c => if c.gstMode = some "include" then .incl else .excl
    | none => .excl

/-- `parseFloat(String(item.subtotalWithGst ?? item.lineTotal ?? 0))` guarded
by `Number.isFinite && > 0`, else 0. The `??` chain takes the first field that
is present, even when it is unparseable. -/
def staleLineTotal (swg lt : RawNum) : ℚ :=
  let parsed : Option ℚ :=
    match swg with
    | .missing =>
      match lt with
      | .missing => some 0
      | .invalid => none
      | .val q => some q
    | .invalid => none
    | .val q => some q
  match parsed with
  | some q => if 0 < q then q else 0
  | none => 0

/-- The `lineTotal === 0` recomputation branch of `parseOrderItems`. -/
def computeLineTotal (mode : GstMode) (rate unit bs qty : ℚ) : ℚ :=
  if 0 < rate then
    match mode with
    | .incl => roundCurrency (roundCurrency (unit * (1 + rate / 100)) * qty)
    | .excl => roundCurrency (bs + roundCurrency (bs * (rate / 100)))
  else bs

/-- `parseFloat(String(item.gstAmount ?? 0))`: derived from the line total
only when not finite or negative (a missing field parses to 0 and is
trusted), otherwise the stale value is rounded and kept. -/
def preForceGstAmount (g : RawNum) (lt bs : ℚ) : ℚ :=
  match g with
  | .missing => roundCurrency 0
  | .invalid => roundCurrency (max 0 (lt - bs))
  | .val q => if q < 0 then roundCurrency (max 0 (lt - bs)) else roundCurrency q

/-- A canonical line item (`ReceiptItem`) as produced by
`parseOrderItems` in `OrderManagement.tsx`. -/
structure ReceiptItem where
  name : String
  quantity : ℚ
  unitPrice : ℚ
  unitPriceWithTax : ℚ
  baseSubtotal : ℚ
  gstRate : ℚ
  gstMode : GstMode
  gstAmount : ℚ
  lineTotal : ℚ
deriving DecidableEq

/-- Resolved quantity of an item in `parseOrderItems`. -/
def omQuantity (item : RawItem) : ℚ := resolveQuantity item.quantity

/-- Resolved raw (unrounded) unit price of an item in `parseOrderItems`. -/
def omUnit (item : RawItem) : ℚ :=
  resolveUnitPrice item.price item.basePrice item.unitPrice

/-- Resolved base subtotal of an item in `parseOrderItems`. -/
def omBaseSubtotal (item : RawItem) : ℚ :=
  resolveBaseSubtotal item.subtotal (omUnit item) (omQuantity item)

/-- Resolved GST rate of an item in `parseOrderItems`
(after the category-default fallback). -/
def omRate (cat : Option CatDefault) (item : RawItem) : ℚ :=
  resolveGstRate cat item.gstRate

/-- Resolved GST mode of an item in `parseOrderItems`. -/
def omMode (cat : Option CatDefault) (item : RawItem) : GstMode :=
  resolveGstMode cat item.gstMode

/-- The line total of `parseOrderItems` before the zero-rate force:
a positive stale `subtotalWithGst`/`lineTotal` is trusted (rounded),
otherwise the total is recomputed from rate, mode and base subtotal. -/
def omPreLineTotal (cat : Option CatDefault) (item : RawItem) : ℚ :=
  let s := staleLineTotal item.subtotalWithGst item.lineTotal
  if s = 0 then
    computeLineTotal (omMode cat item) (omRate cat item) (omUnit item)
      (omBaseSubtotal item) (omQuantity item)
  else roundCurrency s

/-- The GST amount of `parseOrderItems` before the zero-rate force. -/
def omPreGst (cat : Option CatDefault) (item : RawItem) : ℚ :=
  preForceGstAmount item.gstAmount (omPreLineTotal cat item) (omBaseSubtotal item)

/-- `parseOrderItems` (per item) from `OrderManagement.tsx`: the pricing
reconciliation producing one canonical line item from a raw line item and the
item's category tax default (the per-item `menuItemsById`/`categoriesById`
lookup is abstracted as the `cat` parameter). -/
def parseOrderItem (cat : Option CatDefault) (item : RawItem) : ReceiptItem :=
  let rate := omRate cat item
  let lt := if rate = 0 then omBaseSubtotal item else omPreLineTotal cat item
  let up := roundCurrency (omUnit item)
  { name := resolveName item.name
    quantity := omQuantity item
    unitPrice := up
    unitPriceWithTax :=
      match omMode cat item with
      | .incl => if 0 < omQuantity item then roundCurrency (lt / omQuantity item) else lt
      | .excl => up
    baseSubtotal := omBaseSubtotal item
    gstRate := rate
    gstMode := omMode cat item
    gstAmount := if rate = 0 then 0 else omPreGst cat item
    lineTotal := lt }

/-- The GST-exclusive scenario item of the spec:
`{price: 100, quantity: 2, gstRate: 5, gstMode: "exclude"}`. -/
def scenarioExcludeItem : RawItem :=
  { emptyRaw with price := .val 100, quantity := .val 2,
                  gstRate := .val 5, gstMode := some "exclude" }

/-- `Number(r ?? dflt)` / `parseFloat(String(r ?? dflt))` on a raw field:
an absent field takes the default, an unparseable one gives NaN (`none`). -/
def jsNumOr (r : RawNum) (dflt : ℚ) : Option ℚ :=
  match r with
  | .missing => some dflt
  | .invalid => none
  | .val q => some q

/-- First present field of a `??` chain with numeric default: returns the
parse outcome of the first non-absent field, the default if all are absent. -/
def firstPresent (l : List RawNum) (dflt : ℚ) : Option ℚ :=
  match l with
  | [] => some dflt
  | r :: rest =>
    match r with
    | .missing => firstPresent rest dflt
    | .invalid => none
    | .val q => some q

/-- Canonical line item built by `parseOrderItemsForBill` in the captain
dashboard (`part_002`).  Its `gstRate` is `Number(item.gstRate ?? 0)` with no
finiteness guard, so NaN can flow into the output; that is modelled by
`Option ℚ` with `none` for NaN. -/
structure BillReceiptItem where
  name : String
  quantity : ℚ
  unitPrice : ℚ
  unitPriceWithTax : ℚ
  baseSubtotal : ℚ
  gstRate : Option ℚ
  gstMode : GstMode
  gstAmount : ℚ
  lineTotal : ℚ
deriving DecidableEq

/-- `parseOrderItemsForBill` (per item) from the captain dashboard
(`part_002`): no category fallback; a stale positive
`subtotalWithGst`/`lineTotal`/`total` is trusted, a stale finite nonnegative
`gstAmount` is trusted, and the GST figures are recomputed only when
`gstRate > 0` and the stale GST amount is 0. -/
def parseOrderItemForBill (item : RawItem) : BillReceiptItem :=
  let qty := resolveQuantity item.quantity
  let unit := resolveUnitPrice item.price item.basePrice item.unitPrice
  let bs0 := resolveBaseSubtotal item.subtotal unit qty
  let rate := jsNumOr item.gstRate 0
  let mode : GstMode := if item.gstMode = some "include" then .incl else .excl
  let lt0 : ℚ :=
    match firstPresent [item.subtotalWithGst, item.lineTotal, item.total] 0 with
    | some q => if 0 < q then roundCurrency q else bs0
    | none => bs0
  let gst0 : ℚ :=
    match jsNumOr item.gstAmount 0 with
    | some q => if 0 ≤ q then roundCurrency q else 0
    | none => 0
  let res : ℚ × ℚ × ℚ :=
    match rate with
    | some r =>
      if 0 < r ∧ gst0 = 0 then
        match mode with
        | .incl =>
          let g := roundCurrency (lt0 * (r / (100 + r)))
          (roundCurrency (lt0 - g), g, lt0)
        | .excl =>
          let g := roundCurrency (bs0 * (r / 100))
          (bs0, g, roundCurrency (bs0 + g))
      else (bs0, gst0, lt0)
    | none => (bs0, gst0, lt0)
  { name := resolveName item.name
    quantity := qty
    unitPrice := roundCurrency unit
    unitPriceWithTax := roundCurrency unit
    baseSubtotal := res.1
    gstRate := rate
    gstMode := mode
    gstAmount := res.2.1
    lineTotal := res.2.2 }

/-- The stored `order.items` payload, classified by how the JavaScript
readers see it: an actual array, a JSON string that parses to an array, a
JSON string that parses to something that is not an array, an unparseable
JSON string, a non-array object carrying an `items` array, or any other
value. -/
inductive ItemsPayload where
  | arr (l : List RawItem)
  | strArr (l : List RawItem)
  | strNonArr
  | strBad
  | objWithItems (l : List RawItem)
  | otherVal
deriving DecidableEq

/-- Raw-item extraction of `parseOrderItems` (`OrderManagement.tsx`) and of
`parseOrderItemsForBill` (`part_002`): arrays and JSON strings parsing to
arrays contribute their elements; everything else (including malformed
payloads, silently caught) contributes nothing. -/
def rawItemsOfOrder (p : ItemsPayload) : List RawItem :=
  match p with
  | .arr l => l
  | .strArr l => l
  | _ => []

/-- `parseOrderItems` from `OrderManagement.tsx` at the order level
(one shared category default stands in for the per-item category lookup). -/
def parseOrderItems (cat : Option CatDefault) (p : ItemsPayload) : List ReceiptItem :=
  (rawItemsOfOrder p).map (parseOrderItem cat)

/-- Raw-item extraction of `parseOrderItemsForDisplay` (`part_002`): like
`rawItemsOfOrder` but a non-array object with an `items` array also
contributes its elements. -/
def rawItemsForDisplay (p : ItemsPayload) : List RawItem :=
  match p with
  | .arr l => l
  | .strArr l => l
  | .objWithItems l => l
  | _ => []

/-- A display line item (`DisplayOrderItem`) from `part_002`.  (The addon
name list is not consulted by any property below and is omitted.) -/
structure DisplayOrderItem where
  name : String
  quantity : ℚ
  lineTotal : ℚ
  gstAmount : ℚ
  gstRate : ℚ
deriving DecidableEq

/-- The per-item mapper of `parseOrderItemsForDisplay` (`part_002`). -/
def displayItem (item : RawItem) : DisplayOrderItem :=
  { name :=
      match item.name with
      | some s => s
      | none => "Item"
    quantity :=
      match jsNumOr item.quantity 1 with
      | some q => if 0 < q then (⌊q⌋ : ℚ) else 1
      | none => 1
    lineTotal :=
      match firstPresent [item.lineTotal, item.subtotalWithGst, item.subtotal, item.total] 0 with
      | some q => roundCurrency q
      | none => 0
    gstAmount :=
      match jsNumOr item.gstAmount 0 with
      | some q => roundCurrency q
      | none => 0
    gstRate :=
      match jsNumOr item.gstRate 0 with
      | some q => roundCurrency q
      | none => 0 }

/-- `parseOrderItemsForDisplay` from `part_002` at the order level. -/
def parseOrderItemsForDisplay (p : ItemsPayload) : List DisplayOrderItem :=
  (rawItemsForDisplay p).map displayItem

/-- The re-injection of a canonical `ReceiptItem` as a raw item: the produced
object carries exactly the keys `name`, `quantity`, `unitPrice`,
`baseSubtotal`, `gstRate`, `gstMode`, `gstAmount`, `lineTotal` (plus
`unitPriceWithTax`, which no reader consults); in particular it has no
`price`, `subtotal`, `subtotalWithGst` or `total` key. -/
def canonicalToRaw (r : ReceiptItem) : RawItem :=
  { emptyRaw with
      name := some r.name
      quantity := .val r.quantity
      unitPrice := .val r.unitPrice
      gstRate := .val r.gstRate
      gstMode := some (gstModeString r.gstMode)
      lineTotal := .val r.lineTotal
      gstAmount := .val r.gstAmount }

/-- Discount kind selected in the bill dialog. -/
inductive DiscountType where
  | percentage
  | fixed
deriving DecidableEq

/-- The discount-amount preview of the captain bill dialog
(`CaptainOrders.tsx`): for `percentage`, `totalAmount × value / 100`;
for `fixed`, `min(value, totalAmount)`. -/
def previewDiscountAmount (dt : DiscountType) (v total : ℚ) : ℚ :=
  match dt with
  | .percentage => total * v / 100
  | .fixed => min v total

/-- `finalTotal = totalAmount - discountAmount` of the same preview. -/
def previewFinalTotal (dt : DiscountType) (v total : ℚ) : ℚ :=
  total - previewDiscountAmount dt v total

/-- Modelled from the spec: the Invoice Builder (`client/src/lib/receipt-utils.ts`,
not part of the sources) computes, per the spec, a discount amount of
`grandPreDiscount × value/100` for `percentage` and `min(value, grandPreDiscount)`
for `fixed`. -/
def invoiceDiscountAmount (dt : DiscountType) (v pre : ℚ) : ℚ :=
  match dt with
  | .percentage => pre * v / 100
  | .fixed => min v pre

/-- Modelled from the spec: the Invoice Builder's
`grandTotal = grandPreDiscount − discountAmount`, floored at 0. -/
def invoiceGrandTotal (dt : DiscountType) (v pre : ℚ) : ℚ :=
  max 0 (pre - invoiceDiscountAmount dt v pre)

/-- A payment method (`PaymentType`). -/
inductive PaymentType where
  | cash
  | upi
deriving DecidableEq

/-- `billTargetOrder.paymentMethod || paymentType`: the stored payment method
when present (a null/undefined/empty stored value is `none`), otherwise the
dialog selection. -/
def jsResolvePayment (stored selected : Option PaymentType) : Option PaymentType :=
  match stored with
  | some p => some p
  | none => selected

/-- Observable effects of one run of `handlePrintBill` (`CaptainOrders.tsx`). -/
structure BillOutcome where
  printed : Bool
  completionIssued : Bool
  paymentSaveIssued : Bool
  usedPayment : Option PaymentType
deriving DecidableEq

/-- `handlePrintBill` from `CaptainOrders.tsx`, as a function of the stored
payment method, the dialog selection, and whether the print call succeeds:
resolve the payment method (aborting with a toast when none), save it when the
order has none stored, print (returning on failure), then issue the
`completed` status mutation. -/
def handlePrintBill (stored selected : Option PaymentType) (printOk : Bool) : BillOutcome :=
  match jsResolvePayment stored selected with
  | none =>
    { printed := false, completionIssued := false, paymentSaveIssued := false
      usedPayment := none }
  | some pm =>
    if printOk then
      { printed := true, completionIssued := true, paymentSaveIssued := stored.isNone
        usedPayment := some pm }
    else
      { printed := false, completionIssued := false, paymentSaveIssued := stored.isNone
        usedPayment := some pm }

/-- The payment-type radio group of the bill dialog is rendered under the
guard `!billTargetOrder?.paymentMethod` (`CaptainOrders.tsx`). -/
def billPromptShown (stored : Option PaymentType) : Bool := stored.isNone

/-- Observable effects of one run of `handlePrintKot` (`CaptainOrders.tsx`). -/
structure KotOutcome where
  printed : Bool
  markPrintedIssued : Bool
deriving DecidableEq

/-- `handlePrintKot` from `CaptainOrders.tsx`, as a function of whether a
target order is set and of the outcomes of the two kitchen-state fetches
(`kot/all-items` and `kot/unprinted`); a failed fetch is caught by the
surrounding `try`/`catch`, which only shows an error toast.  Printing happens
only after both fetches succeed and the item list is non-empty; the
mark-printed request is issued only when there are unprinted items. -/
def handlePrintKot (hasTarget : Bool)
    (fetchAllItems fetchUnprinted : Except Unit (List RawItem)) : KotOutcome :=
  if hasTarget then
    match fetchAllItems with
    | .error _ => { printed := false, markPrintedIssued := false }
    | .ok allItems =>
      match allItems with
      | [] => { printed := false, markPrintedIssued := false }
      | _ :: _ =>
        match fetchUnprinted with
        | .error _ => { printed := false, markPrintedIssued := false }
        | .ok unprinted => { printed := true, markPrintedIssued := !unprinted.isEmpty }
  else { printed := false, markPrintedIssued := false }

/-- The vendor status flow of `getNextStatus` (`OrderManagement.tsx`). -/
def vendorFlow : List String :=
  ["pending", "accepted", "preparing", "ready", "delivered"]

/-- The captain dining status flow of `getNextStatus`
(`CaptainOrders.tsx` and `part_002`, identical). -/
def captainFlow : List String :=
  ["pending", "accepted", "preparing", "ready", "delivered", "completed"]

/-- `getNextStatus`: `flow[flow.indexOf(current) + 1] || current`.
When `current` is not in the flow, `indexOf` gives -1 and `flow[0]` is
read; a falsy lookup (out of bounds, or an empty string) falls back to
`current`. -/
def jsGetNextStatus (flow : List String) (current : String) : String :=
  match flow.findIdx? (fun s => s == current) with
  | some i =>
    match flow.get? (i + 1) with
    | some nxt => if nxt = "" then current else nxt
    | none => current
  | none =>
    match flow.get? 0 with
    | some first => if first = "" then current else first
    | none => current


/-- A rational is a whole number of hundredths (i.e. a 2-decimal value). -/
def Is2dp (q : ℚ) : Prop := ∃ z : ℤ, q = (z : ℚ) / 100

theorem is2dp_zero : Is2dp 0 := ⟨0, by norm_num⟩

theorem roundCurrency_intCast_div (z : ℤ) : roundCurrency ((z : ℚ) / 100) = (z : ℚ) / 100 := by
  have h100 : ((z : ℚ) / 100) * 100 = (z : ℚ) := by field_simp
  unfold roundCurrency roundHalfAway
  rw [h100]
  rcases le_or_lt 0 (z : ℚ) with h | h
  · rw [if_pos h, Int.floor_int_add]
    norm_num
  · rw [if_neg (not_le.mpr h)]
    have hz : -(z : ℚ) = ((-z : ℤ) : ℚ) := by push_cast; ring
    rw [hz, Int.floor_int_add]
    norm_num

theorem roundCurrency_is2dp (q : ℚ) : Is2dp (roundCurrency q) :=
  ⟨roundHalfAway (q * 100), rfl⟩

theorem Is2dp.roundCurrency_eq {q : ℚ} (h : Is2dp q) : roundCurrency q = q := by
  obtain ⟨z, rfl⟩ := h
  exact roundCurrency_intCast_div z

theorem Is2dp.sub {a b : ℚ} (ha : Is2dp a) (hb : Is2dp b) : Is2dp (a - b) := by
  obtain ⟨x, rfl⟩ := ha
  obtain ⟨y, rfl⟩ := hb
  exact ⟨x - y, by push_cast; ring⟩

theorem roundCurrency_nonneg {q : ℚ} (h : 0 ≤ q) : 0 ≤ roundCurrency q := by
  unfold roundCurrency roundHalfAway
  have h' : 0 ≤ q * 100 := by positivity
  rw [if_pos h']
  have hf : (0 : ℤ) ≤ ⌊q * 100 + 1/2⌋ := Int.floor_nonneg.mpr (by linarith)
  positivity

theorem resolveQuantity_pos (r : RawNum) : 0 < resolveQuantity r := by
  cases r with
  | missing => norm_num [resolveQuantity]
  | invalid => norm_num [resolveQuantity]
  | val q =>
    simp only [resolveQuantity]
    split
    · assumption
    · norm_num

theorem resolveBaseSubtotal_is2dp (sub : RawNum) (unit qty : ℚ) :
    Is2dp (resolveBaseSubtotal sub unit qty) := by
  cases sub <;> exact roundCurrency_is2dp _

theorem normalizeRateValue_nonneg (r : RawNum) : 0 ≤ normalizeRateValue r := by
  cases r with
  | missing => norm_num [normalizeRateValue]
  | invalid => norm_num [normalizeRateValue]
  | val q =>
    simp only [normalizeRateValue]
    split
    · norm_num
    · next h => exact roundCurrency_nonneg (by linarith [not_le.mp h])

theorem normalizeRateValue_is2dp (r : RawNum) : Is2dp (normalizeRateValue r) := by
  cases r with
  | missing => exact is2dp_zero
  | invalid => exact is2dp_zero
  | val q =>
    simp only [normalizeRateValue]
    split
    · exact is2dp_zero
    · exact roundCurrency_is2dp q

theorem normalizeRateValue_val_self (r : RawNum) :
    normalizeRateValue (.val (normalizeRateValue r)) = normalizeRateValue r := by
  have hn := normalizeRateValue_nonneg r
  have h2 := normalizeRateValue_is2dp r
  show (if normalizeRateValue r ≤ 0 then 0 else roundCurrency (normalizeRateValue r)) = _
  split
  · next h => linarith [le_antisymm h hn]
  · exact h2.roundCurrency_eq

theorem resolveGstRate_nonneg (cat : Option CatDefault) (r : RawNum) :
    0 ≤ resolveGstRate cat r := by
  cases cat with
  | none => exact normalizeRateValue_nonneg r
  | some c =>
    simp only [resolveGstRate]
    split
    · exact normalizeRateValue_nonneg c.gstRate
    · exact normalizeRateValue_nonneg r

theorem resolveGstRate_is2dp (cat : Option CatDefault) (r : RawNum) :
    Is2dp (resolveGstRate cat r) := by
  cases cat with
  | none => exact normalizeRateValue_is2dp r
  | some c =>
    simp only [resolveGstRate]
    split
    · exact normalizeRateValue_is2dp c.gstRate
    · exact normalizeRateValue_is2dp r

theorem resolveGstRate_idem (cat : Option CatDefault) (r : RawNum) :
    resolveGstRate cat (.val (resolveGstRate cat r)) = resolveGstRate cat r := by
  cases cat with
  | none => exact normalizeRateValue_val_self r
  | some c =>
    simp only [resolveGstRate]
    by_cases hcond : normalizeRateValue r = 0 ∧ 0 < normalizeRateValue c.gstRate
    · rw [if_pos hcond]
      rw [show normalizeRateValue (.val (normalizeRateValue c.gstRate)) =
            normalizeRateValue c.gstRate from normalizeRateValue_val_self c.gstRate]
      rw [if_neg (fun h0 => absurd h0.2 (by rw [h0.1]; norm_num))]
    · rw [if_neg hcond]
      rw [show normalizeRateValue (.val (normalizeRateValue r)) =
            normalizeRateValue r from normalizeRateValue_val_self r]
      rw [if_neg hcond]

theorem omPreLineTotal_is2dp (cat : Option CatDefault) (item : RawItem) :
    Is2dp (omPreLineTotal cat item) := by
  simp only [omPreLineTotal]
  split
  · simp only [computeLineTotal]
    split
    · cases omMode cat item
      · exact roundCurrency_is2dp _
      · exact roundCurrency_is2dp _
    · exact resolveBaseSubtotal_is2dp _ _ _
  · exact roundCurrency_is2dp _

theorem preForceGstAmount_nonneg (g : RawNum) (lt bs : ℚ) :
    0 ≤ preForceGstAmount g lt bs := by
  cases g with
  | missing => exact roundCurrency_nonneg le_rfl
  | invalid => exact roundCurrency_nonneg (le_max_left 0 _)
  | val q =>
    simp only [preForceGstAmount]
    split
    · exact roundCurrency_nonneg (le_max_left 0 _)
    · next h => exact roundCurrency_nonneg (not_lt.mp h)

theorem preForceGstAmount_is2dp (g : RawNum) (lt bs : ℚ) :
    Is2dp (preForceGstAmount g lt bs) := by
  cases g with
  | missing => exact roundCurrency_is2dp _
  | invalid => exact roundCurrency_is2dp _
  | val q =>
    simp only [preForceGstAmount]
    split
    · exact roundCurrency_is2dp _
    · exact roundCurrency_is2dp _

theorem resolveName_ne_empty (n : Option String) : resolveName n ≠ "" := by
  cases n with
  | none => decide
  | some s =>
    simp only [resolveName]
    split
    · decide
    · assumption

theorem resolveName_idem (n : Option String) :
    resolveName (some (resolveName n)) = resolveName n := by
  show (if resolveName n = "" then "Item" else resolveName n) = resolveName n
  rw [if_neg (resolveName_ne_empty n)]

theorem parseOrderItem_gstRate (cat : Option CatDefault) (item : RawItem) :
    (parseOrderItem cat item).gstRate = omRate cat item := rfl

theorem parseOrderItem_baseSubtotal (cat : Option CatDefault) (item : RawItem) :
    (parseOrderItem cat item).baseSubtotal = omBaseSubtotal item := rfl

theorem parseOrderItem_quantity (cat : Option CatDefault) (item : RawItem) :
    (parseOrderItem cat item).quantity = omQuantity item := rfl

theorem parseOrderItem_gstMode (cat : Option CatDefault) (item : RawItem) :
    (parseOrderItem cat item).gstMode = omMode cat item := rfl

theorem parseOrderItem_name (cat : Option CatDefault) (item : RawItem) :
    (parseOrderItem cat item).name = resolveName item.name := rfl

theorem parseOrderItem_unitPrice (cat : Option CatDefault) (item : RawItem) :
    (parseOrderItem cat item).unitPrice = roundCurrency (omUnit item) := rfl

theorem parseOrderItem_gstAmount (cat : Option CatDefault) (item : RawItem) :
    (parseOrderItem cat item).gstAmount =
      if omRate cat item = 0 then 0 else omPreGst cat item := rfl

theorem parseOrderItem_lineTotal (cat : Option CatDefault) (item : RawItem) :
    (parseOrderItem cat item).lineTotal =
      if omRate cat item = 0 then omBaseSubtotal item else omPreLineTotal cat item := rfl

theorem parseOrderItem_unitPriceWithTax (cat : Option CatDefault) (item : RawItem) :
    (parseOrderItem cat item).unitPriceWithTax =
      match omMode cat item with
      | .incl =>
        if 0 < omQuantity item
        then roundCurrency ((parseOrderItem cat item).lineTotal / omQuantity item)
        else (parseOrderItem cat item).lineTotal
      | .excl => roundCurrency (omUnit item) := rfl

/-- Full evaluation of the reconciler on the spec's GST-exclusive scenario
item: the computed line total includes the 5% GST, but the missing raw
`gstAmount` field is parsed as the trusted stale value 0. -/
theorem scenarioExclude_eval :
    parseOrderItem none scenarioExcludeItem =
    { name := "Item", quantity := 2, unitPrice := 100, unitPriceWithTax := 100
      baseSubtotal := 200, gstRate := 5, gstMode := .excl
      gstAmount := 0, lineTotal := 210 } := by
  simp +decide [parseOrderItem, scenarioExcludeItem, emptyRaw, omRate, omMode, omUnit,
    omQuantity, omBaseSubtotal, omPreLineTotal, omPreGst, resolveGstRate, resolveGstMode,
    normalizeRateValue, resolveQuantity, resolveUnitPrice, resolveBaseSubtotal,
    staleLineTotal, computeLineTotal, preForceGstAmount, resolveName]
  norm_num [roundCurrency, roundHalfAway]

/-- A zero-rate item carrying stale tax fields: subtotal 10, but a stale
`gstAmount` of 5 and a stale `lineTotal` of 20. -/
def staleZeroRateItem : RawItem :=
  { emptyRaw with subtotal := .val 10, gstAmount := .val 5, lineTotal := .val 20 }

/-- Evaluation of the captain bill parser on `staleZeroRateItem`: the
zero GST rate does not clear the stale fields. -/
theorem staleZeroRate_bill_eval :
    parseOrderItemForBill staleZeroRateItem =
    { name := "Item", quantity := 1, unitPrice := 0, unitPriceWithTax := 0
      baseSubtotal := 10, gstRate := some 0, gstMode := .excl
      gstAmount := 5, lineTotal := 20 } := by
  simp +decide [parseOrderItemForBill, staleZeroRateItem, emptyRaw, jsNumOr, firstPresent,
    resolveQuantity, resolveUnitPrice, resolveBaseSubtotal, resolveName]
  norm_num [roundCurrency, roundHalfAway]

/-- C1 (counterexample): the captain bill parser `parseOrderItemsForBill`
(`part_002`) reconciles `staleZeroRateItem` to `gstRate = 0` yet keeps the
stale `gstAmount = 5` and `lineTotal = 20 ≠ baseSubtotal = 10`, so the claim
as stated over the cited reconcilers is false. -/
theorem c1_counterexample :
    (parseOrderItemForBill staleZeroRateItem).gstRate = some 0 ∧
    ¬ ((parseOrderItemForBill staleZeroRateItem).gstAmount = 0 ∧
       (parseOrderItemForBill staleZeroRateItem).lineTotal =
         (parseOrderItemForBill staleZeroRateItem).baseSubtotal) := by
  rw [staleZeroRate_bill_eval]
  refine ⟨rfl, fun h => ?_⟩
  norm_num at h

/-- C1 (amended): in the vendor reconciler `parseOrderItems`
(`OrderManagement.tsx`), every raw line item whose resolved GST rate (after
the category-default fallback) is 0 gets `gstAmount = 0` and
`lineTotal = baseSubtotal`, regardless of stale `gstAmount`, `lineTotal` or
`subtotalWithGst` fields in the raw input. -/
theorem c1_zero_rate_forces_zero_tax (cat : Option CatDefault) (item : RawItem)
    (h : (parseOrderItem cat item).gstRate = 0) :
    (parseOrderItem cat item).gstAmount = 0 ∧
    (parseOrderItem cat item).lineTotal = (parseOrderItem cat item).baseSubtotal := by
  have hr : omRate cat item = 0 := h
  rw [parseOrderItem_gstAmount, parseOrderItem_lineTotal, parseOrderItem_baseSubtotal,
    if_pos hr, if_pos hr]
  exact ⟨rfl, rfl⟩

/-- A rate-less item carrying stale tax fields (price 100 × 2, stale
`gstAmount` 7 and stale `lineTotal` 50). -/
def zeroRateStaleWitnessItem : RawItem :=
  { emptyRaw with price := .val 100, quantity := .val 2,
                  gstAmount := .val 7, lineTotal := .val 50 }

theorem c1_witness :
    (parseOrderItem none zeroRateStaleWitnessItem).gstRate = 0 ∧
    ((parseOrderItem none zeroRateStaleWitnessItem).gstAmount = 0 ∧
     (parseOrderItem none zeroRateStaleWitnessItem).lineTotal =
       (parseOrderItem none zeroRateStaleWitnessItem).baseSubtotal) :=
  ⟨rfl, c1_zero_rate_forces_zero_tax none zeroRateStaleWitnessItem rfl⟩

/-- The raw `gstAmount` field is present but unusable (NaN or negative), so
the reconciler derives the GST amount from the line total. -/
def gstAmountDerived (item : RawItem) : Prop :=
  item.gstAmount = .invalid ∨ ∃ q, item.gstAmount = .val q ∧ q < 0

/-- C2 (counterexample): on the pristine GST-exclusive scenario item the
reconciled values are baseSubtotal 200, gstAmount 0, lineTotal 210, so
`lineTotal = baseSubtotal + gstAmount` fails even without stale raw fields. -/
theorem c2_counterexample :
    ¬ ((parseOrderItem none scenarioExcludeItem).lineTotal =
       (parseOrderItem none scenarioExcludeItem).baseSubtotal +
       (parseOrderItem none scenarioExcludeItem).gstAmount) := by
  rw [scenarioExclude_eval]
  norm_num

/-- C2 (amended): `lineTotal = baseSubtotal + gstAmount` holds whenever the
resolved GST rate is 0 (the zero-rate force), and whenever the raw
`gstAmount` is present but NaN or negative — so that the reconciler derives
it as `max(0, lineTotal − baseSubtotal)` — and the reconciled line total is
at least the base subtotal; with a trusted stale `gstAmount` (a missing
field is trusted as 0) the identity can fail. -/
theorem c2_lineTotal_identity (cat : Option CatDefault) (item : RawItem) :
    ((parseOrderItem cat item).gstRate = 0 →
      (parseOrderItem cat item).lineTotal =
        (parseOrderItem cat item).baseSubtotal + (parseOrderItem cat item).gstAmount) ∧
    (gstAmountDerived item →
      (parseOrderItem cat item).baseSubtotal ≤ (parseOrderItem cat item).lineTotal →
      (parseOrderItem cat item).lineTotal =
        (parseOrderItem cat item).baseSubtotal + (parseOrderItem cat item).gstAmount) := by
  have hbs2 : Is2dp (omBaseSubtotal item) := resolveBaseSubtotal_is2dp _ _ _
  have hlt2 : Is2dp (omPreLineTotal cat item) := omPreLineTotal_is2dp cat item
  constructor
  · intro h
    have hr : omRate cat item = 0 := h
    rw [parseOrderItem_gstAmount, parseOrderItem_lineTotal, parseOrderItem_baseSubtotal,
      if_pos hr, if_pos hr]
    ring
  · intro hder hle
    by_cases hr : omRate cat item = 0
    · rw [parseOrderItem_gstAmount, parseOrderItem_lineTotal, parseOrderItem_baseSubtotal,
        if_pos hr, if_pos hr]
      ring
    · rw [parseOrderItem_baseSubtotal, parseOrderItem_lineTotal, if_neg hr] at hle
      rw [parseOrderItem_gstAmount, parseOrderItem_lineTotal, parseOrderItem_baseSubtotal,
        if_neg hr, if_neg hr]
      have hg : omPreGst cat item =
          roundCurrency (max 0 (omPreLineTotal cat item - omBaseSubtotal item)) := by
        rcases hder with hinv | ⟨q, hq, hneg⟩
        · simp only [omPreGst, hinv, preForceGstAmount]
        · simp only [omPreGst, hq, preForceGstAmount, if_pos hneg]
      rw [hg, max_eq_right (sub_nonneg.mpr hle), (hlt2.sub hbs2).roundCurrency_eq]
      ring

/-- A GST-exclusive item whose raw `gstAmount` field is present but
unparseable, so the reconciler has to derive the GST amount. -/
def derivedGstWitnessItem : RawItem :=
  { emptyRaw with price := .val 100, quantity := .val 1,
                  gstRate := .val 5, gstMode := some "exclude",
                  gstAmount := .invalid }

/-- Evaluation of the reconciler on `derivedGstWitnessItem`. -/
theorem derivedGstWitness_eval :
    parseOrderItem none derivedGstWitnessItem =
    { name := "Item", quantity := 1, unitPrice := 100, unitPriceWithTax := 100
      baseSubtotal := 100, gstRate := 5, gstMode := .excl
      gstAmount := 5, lineTotal := 105 } := by
  simp +decide [parseOrderItem, derivedGstWitnessItem, emptyRaw, omRate, omMode, omUnit,
    omQuantity, omBaseSubtotal, omPreLineTotal, omPreGst, resolveGstRate, resolveGstMode,
    normalizeRateValue, resolveQuantity, resolveUnitPrice, resolveBaseSubtotal,
    staleLineTotal, computeLineTotal, preForceGstAmount, resolveName]
  norm_num [roundCurrency, roundHalfAway]

theorem c2_witness :
    gstAmountDerived derivedGstWitnessItem ∧
    (parseOrderItem none derivedGstWitnessItem).baseSubtotal ≤
      (parseOrderItem none derivedGstWitnessItem).lineTotal ∧
    (parseOrderItem none derivedGstWitnessItem).lineTotal =
      (parseOrderItem none derivedGstWitnessItem).baseSubtotal +
      (parseOrderItem none derivedGstWitnessItem).gstAmount := by
  have hder : gstAmountDerived derivedGstWitnessItem := Or.inl rfl
  have hle : (parseOrderItem none derivedGstWitnessItem).baseSubtotal ≤
      (parseOrderItem none derivedGstWitnessItem).lineTotal := by
    rw [derivedGstWitness_eval]; norm_num
  exact ⟨hder, hle, (c2_lineTotal_identity none derivedGstWitnessItem).2 hder hle⟩

/-- C3: evaluating the reconciler at the spec's scenario item
`{price: 100, quantity: 2, gstRate: 5, gstMode: "exclude"}` yields
baseSubtotal 200 and lineTotal 210 as the claim says, but `gstAmount = 0`
instead of the claimed 10.00: the missing raw `gstAmount` field is parsed as
0 and trusted, even though the computed line total includes the 5% GST. -/
theorem c3_scenario_divergence :
    (parseOrderItem none scenarioExcludeItem).baseSubtotal = 200 ∧
    (parseOrderItem none scenarioExcludeItem).lineTotal = 210 ∧
    (parseOrderItem none scenarioExcludeItem).gstAmount = 0 ∧
    (parseOrderItem none scenarioExcludeItem).gstAmount ≠ 10 := by
  rw [scenarioExclude_eval]
  refine ⟨rfl, rfl, rfl, ?_⟩
  norm_num

theorem receiptItemExt (a b : ReceiptItem)
    (h1 : a.name = b.name) (h2 : a.quantity = b.quantity)
    (h3 : a.unitPrice = b.unitPrice) (h4 : a.unitPriceWithTax = b.unitPriceWithTax)
    (h5 : a.baseSubtotal = b.baseSubtotal) (h6 : a.gstRate = b.gstRate)
    (h7 : a.gstMode = b.gstMode) (h8 : a.gstAmount = b.gstAmount)
    (h9 : a.lineTotal = b.lineTotal) : a = b := by
  cases a; cases b; simp_all

theorem omUnit_canonical (r : ReceiptItem) : omUnit (canonicalToRaw r) = r.unitPrice := rfl

theorem omQuantity_canonical (r : ReceiptItem) (h : 0 < r.quantity) :
    omQuantity (canonicalToRaw r) = r.quantity := by
  show resolveQuantity (.val r.quantity) = r.quantity
  simp only [resolveQuantity]
  rw [if_pos h]

theorem omBaseSubtotal_canonical (r : ReceiptItem) :
    omBaseSubtotal (canonicalToRaw r) =
      roundCurrency (r.unitPrice * omQuantity (canonicalToRaw r)) := rfl

theorem omRate_canonical (cat : Option CatDefault) (r : ReceiptItem) :
    omRate cat (canonicalToRaw r) = resolveGstRate cat (.val r.gstRate) := rfl

theorem omMode_canonical (cat : Option CatDefault) (r : ReceiptItem) :
    omMode cat (canonicalToRaw r) = r.gstMode := by
  show resolveGstMode cat (some (gstModeString r.gstMode)) = r.gstMode
  cases hm : r.gstMode with
  | incl => simp +decide [resolveGstMode, gstModeString]
  | excl => simp +decide [resolveGstMode, gstModeString]

/-- An item with a stale `subtotal` (15) disagreeing with
`price × quantity` (10 × 2 = 20). -/
def staleSubtotalItem : RawItem :=
  { emptyRaw with price := .val 10, quantity := .val 2, subtotal := .val 15 }

/-- First reconciliation pass on `staleSubtotalItem`: the stale subtotal 15
is trusted. -/
theorem staleSubtotal_eval :
    parseOrderItem none staleSubtotalItem =
    { name := "Item", quantity := 2, unitPrice := 10, unitPriceWithTax := 10
      baseSubtotal := 15, gstRate := 0, gstMode := .excl
      gstAmount := 0, lineTotal := 15 } := by
  simp +decide [parseOrderItem, staleSubtotalItem, emptyRaw, omRate, omMode, omUnit,
    omQuantity, omBaseSubtotal, omPreLineTotal, omPreGst, resolveGstRate, resolveGstMode,
    normalizeRateValue, resolveQuantity, resolveUnitPrice, resolveBaseSubtotal,
    staleLineTotal, computeLineTotal, preForceGstAmount, resolveName]
  norm_num [roundCurrency, roundHalfAway]

/-- Second reconciliation pass on the canonical output of
`staleSubtotalItem`: the canonical item carries no `subtotal` key, so the
base subtotal is recomputed as `unitPrice × quantity = 20`. -/
theorem staleSubtotal_second_eval :
    parseOrderItem none (canonicalToRaw (parseOrderItem none staleSubtotalItem)) =
    { name := "Item", quantity := 2, unitPrice := 10, unitPriceWithTax := 10
      baseSubtotal := 20, gstRate := 0, gstMode := .excl
      gstAmount := 0, lineTotal := 20 } := by
  rw [staleSubtotal_eval]
  simp +decide [parseOrderItem, canonicalToRaw, emptyRaw, omRate, omMode, omUnit,
    omQuantity, omBaseSubtotal, omPreLineTotal, omPreGst, resolveGstRate, resolveGstMode,
    normalizeRateValue, resolveQuantity, resolveUnitPrice, resolveBaseSubtotal,
    staleLineTotal, computeLineTotal, preForceGstAmount, resolveName, gstModeString]
  norm_num [roundCurrency, roundHalfAway]

/-- C4 (counterexample): re-reconciling the canonical form of
`staleSubtotalItem` changes `baseSubtotal` from 15 to 20 (and `lineTotal`
with it), so the reconciliation is not idempotent as claimed. -/
theorem c4_counterexample :
    parseOrderItem none (canonicalToRaw (parseOrderItem none staleSubtotalItem)) ≠
      parseOrderItem none staleSubtotalItem := by
  rw [staleSubtotal_second_eval, staleSubtotal_eval]
  intro h
  have hbs := congrArg ReceiptItem.baseSubtotal h
  norm_num at hbs

/-- C4 (amended): the reconciliation is idempotent for items whose resolved
unit price is already a 2-decimal value, whose reconciled base subtotal
agrees with `roundCurrency(unitPrice × quantity)` (in particular there is no
disagreeing stale `subtotal`), and whose reconciled line total is positive
unless the resolved GST rate is 0.  In general a second pass recomputes
`baseSubtotal` from the rounded unit price and the quantity, because the
canonical output carries no `subtotal` key. -/
theorem c4_idempotent_of_consistent (cat : Option CatDefault) (item : RawItem)
    (h1 : roundCurrency (omUnit item) = omUnit item)
    (h2 : omBaseSubtotal item = roundCurrency (omUnit item * omQuantity item))
    (h3 : 0 < (parseOrderItem cat item).lineTotal ∨ (parseOrderItem cat item).gstRate = 0) :
    parseOrderItem cat (canonicalToRaw (parseOrderItem cat item)) =
      parseOrderItem cat item := by
  have hqpos : 0 < omQuantity item := resolveQuantity_pos _
  have hq : omQuantity (canonicalToRaw (parseOrderItem cat item)) = omQuantity item := by
    rw [omQuantity_canonical _ (by rw [parseOrderItem_quantity]; exact hqpos),
      parseOrderItem_quantity]
  have hu : omUnit (canonicalToRaw (parseOrderItem cat item)) = omUnit item := by
    rw [omUnit_canonical, parseOrderItem_unitPrice, h1]
  have hbs : omBaseSubtotal (canonicalToRaw (parseOrderItem cat item)) = omBaseSubtotal item := by
    rw [omBaseSubtotal_canonical, parseOrderItem_unitPrice, hq, h1, ← h2]
  have hrate : omRate cat (canonicalToRaw (parseOrderItem cat item)) = omRate cat item := by
    rw [omRate_canonical, parseOrderItem_gstRate]
    exact resolveGstRate_idem cat item.gstRate
  have hmode : omMode cat (canonicalToRaw (parseOrderItem cat item)) = omMode cat item := by
    rw [omMode_canonical, parseOrderItem_gstMode]
  have hlt : (parseOrderItem cat (canonicalToRaw (parseOrderItem cat item))).lineTotal =
      (parseOrderItem cat item).lineTotal := by
    by_cases hr : omRate cat item = 0
    · rw [parseOrderItem_lineTotal, parseOrderItem_lineTotal, if_pos hr,
        if_pos (hrate.trans hr), hbs]
    · have hltpos : 0 < omPreLineTotal cat item := by
        rcases h3 with h | h
        · rw [parseOrderItem_lineTotal, if_neg hr] at h; exact h
        · exact absurd h hr
      have hs : staleLineTotal (canonicalToRaw (parseOrderItem cat item)).subtotalWithGst
          (canonicalToRaw (parseOrderItem cat item)).lineTotal = omPreLineTotal cat item := by
        show staleLineTotal .missing (.val (parseOrderItem cat item).lineTotal) = _
        rw [parseOrderItem_lineTotal, if_neg hr]
        simp only [staleLineTotal]
        rw [if_pos hltpos]
      have hpre : omPreLineTotal cat (canonicalToRaw (parseOrderItem cat item)) =
          omPreLineTotal cat item := by
        simp only [omPreLineTotal]
        rw [hs, if_neg (ne_of_gt hltpos)]
        exact (omPreLineTotal_is2dp cat item).roundCurrency_eq
      rw [parseOrderItem_lineTotal, parseOrderItem_lineTotal, if_neg hr,
        if_neg (fun h0 => hr (hrate.symm.trans h0))]
      exact hpre
  have hgst : (parseOrderItem cat (canonicalToRaw (parseOrderItem cat item))).gstAmount =
      (parseOrderItem cat item).gstAmount := by
    by_cases hr : omRate cat item = 0
    · rw [parseOrderItem_gstAmount, parseOrderItem_gstAmount, if_pos hr,
        if_pos (hrate.trans hr)]
    · have hpre : omPreGst cat (canonicalToRaw (parseOrderItem cat item)) =
          omPreGst cat item := by
        have hnn : 0 ≤ omPreGst cat item := preForceGstAmount_nonneg _ _ _
        have h2dp : Is2dp (omPreGst cat item) := preForceGstAmount_is2dp _ _ _
        show preForceGstAmount (.val (parseOrderItem cat item).gstAmount) _ _ = _
        rw [parseOrderItem_gstAmount, if_neg hr]
        simp only [preForceGstAmount]
        rw [if_neg (not_lt.mpr hnn)]
        exact h2dp.roundCurrency_eq
      rw [parseOrderItem_gstAmount, parseOrderItem_gstAmount, if_neg hr,
        if_neg (fun h0 => hr (hrate.symm.trans h0))]
      exact hpre
  refine receiptItemExt _ _ ?_ ?_ ?_ ?_ ?_ ?_ ?_ ?_ ?_
  · rw [parseOrderItem_name, parseOrderItem_name]
    exact resolveName_idem item.name
  · rw [parseOrderItem_quantity, parseOrderItem_quantity, hq]
  · rw [parseOrderItem_unitPrice, parseOrderItem_unitPrice, hu]
  · rw [parseOrderItem_unitPriceWithTax, parseOrderItem_unitPriceWithTax, hmode, hq, hu, hlt]
  · rw [parseOrderItem_baseSubtotal, parseOrderItem_baseSubtotal, hbs]
  · rw [parseOrderItem_gstRate, parseOrderItem_gstRate, hrate]
  · rw [parseOrderItem_gstMode, parseOrderItem_gstMode, hmode]
  · exact hgst
  · exact hlt

theorem c4_witness :
    (roundCurrency (omUnit scenarioExcludeItem) = omUnit scenarioExcludeItem) ∧
    (omBaseSubtotal scenarioExcludeItem =
      roundCurrency (omUnit scenarioExcludeItem * omQuantity scenarioExcludeItem)) ∧
    (0 < (parseOrderItem none scenarioExcludeItem).lineTotal ∨
      (parseOrderItem none scenarioExcludeItem).gstRate = 0) ∧
    parseOrderItem none (canonicalToRaw (parseOrderItem none scenarioExcludeItem)) =
      parseOrderItem none scenarioExcludeItem := by
  have e1 : roundCurrency (omUnit scenarioExcludeItem) = omUnit scenarioExcludeItem := by
    norm_num [omUnit, scenarioExcludeItem, emptyRaw, resolveUnitPrice,
      roundCurrency, roundHalfAway]
  have e2 : omBaseSubtotal scenarioExcludeItem =
      roundCurrency (omUnit scenarioExcludeItem * omQuantity scenarioExcludeItem) := rfl
  have e3 : 0 < (parseOrderItem none scenarioExcludeItem).lineTotal ∨
      (parseOrderItem none scenarioExcludeItem).gstRate = 0 := by
    left
    rw [scenarioExclude_eval]
    norm_num
  exact ⟨e1, e2, e3, c4_idempotent_of_consistent none scenarioExcludeItem e1 e2 e3⟩

/-- C5: the discount computation — matching the captain dialog preview on
`discountAmount` — gives `min(value, total)` for a fixed discount (never
exceeding the bill) and exactly `total × value / 100` for a percentage
discount, and the (spec-modelled) invoice grand total
`max 0 (total − discountAmount)` is never negative; for a fixed discount the
floor is inert: `grandTotal = total − discountAmount` exactly. -/
theorem c5_discount_bounds (dt : DiscountType) (total v : ℚ)
    (hT : 0 ≤ total) (hv : 0 < v) :
    previewDiscountAmount DiscountType.fixed v total = min v total ∧
    invoiceDiscountAmount DiscountType.fixed v total = min v total ∧
    invoiceDiscountAmount DiscountType.fixed v total ≤ total ∧
    previewDiscountAmount DiscountType.percentage v total = total * v / 100 ∧
    invoiceDiscountAmount DiscountType.percentage v total = total * v / 100 ∧
    invoiceGrandTotal dt v total = max 0 (total - invoiceDiscountAmount dt v total) ∧
    0 ≤ invoiceGrandTotal dt v total ∧
    invoiceGrandTotal DiscountType.fixed v total =
      total - invoiceDiscountAmount DiscountType.fixed v total := by
  refine ⟨rfl, rfl, min_le_right v total, rfl, rfl, rfl, le_max_left 0 _, ?_⟩
  have hle : invoiceDiscountAmount DiscountType.fixed v total ≤ total := min_le_right v total
  exact max_eq_right (sub_nonneg.mpr hle)

theorem c5_witness :
    (0 : ℚ) ≤ 500 ∧ (0 : ℚ) < 600 ∧
    invoiceDiscountAmount DiscountType.fixed 600 500 = 500 ∧
    invoiceGrandTotal DiscountType.fixed 600 500 = 0 := by
  have h := c5_discount_bounds DiscountType.fixed 500 600 (by norm_num) (by norm_num)
  have hda : invoiceDiscountAmount DiscountType.fixed 600 500 = 500 := by
    rw [h.2.1]; norm_num
  have hgt : invoiceGrandTotal DiscountType.fixed 600 500 = 0 := by
    rw [h.2.2.2.2.2.2.2, hda]; norm_num
  exact ⟨by norm_num, by norm_num, hda, hgt⟩

/-- C6: bill finalization is gated on a resolved payment method.  With no
stored method and no selection, `handlePrintBill` aborts before printing,
before any payment-method save, and before the `completed` transition; with a
stored method, the stored value is used whatever the dialog selection, and
the payment-type prompt section is not rendered. -/
theorem c6_payment_gate (stored selected : Option PaymentType) (printOk : Bool) :
    (stored = none → selected = none →
      (handlePrintBill stored selected printOk).printed = false ∧
      (handlePrintBill stored selected printOk).completionIssued = false ∧
      (handlePrintBill stored selected printOk).paymentSaveIssued = false) ∧
    (∀ p, stored = some p →
      (handlePrintBill stored selected printOk).usedPayment = some p ∧
      billPromptShown stored = false) := by
  constructor
  · rintro rfl rfl
    exact ⟨rfl, rfl, rfl⟩
  · rintro p rfl
    cases printOk
    · exact ⟨rfl, rfl⟩
    · exact ⟨rfl, rfl⟩

theorem c6_witness :
    ((handlePrintBill none none true).printed = false ∧
     (handlePrintBill none none true).completionIssued = false ∧
     (handlePrintBill none none true).paymentSaveIssued = false) ∧
    ((handlePrintBill (some PaymentType.cash) (some PaymentType.upi) true).usedPayment =
        some PaymentType.cash ∧
     billPromptShown (some PaymentType.cash) = false) :=
  ⟨(c6_payment_gate none none true).1 rfl rfl,
   (c6_payment_gate (some PaymentType.cash) (some PaymentType.upi) true).2
     PaymentType.cash rfl⟩

/-- C7: `getNextStatus` advances exactly one step along the flow: for every
adjacent pair of the captain dining flow and of the vendor flow the successor
of the first is the second; `pending` advances to `accepted` (never further)
in both flows; and at the last element of each flow advancing is a no-op
returning the current status. -/
theorem c7_advance_one_step :
    (∀ i : ℕ, i + 1 < captainFlow.length →
      jsGetNextStatus captainFlow (captainFlow.getD i "") = captainFlow.getD (i + 1) "") ∧
    (∀ i : ℕ, i + 1 < vendorFlow.length →
      jsGetNextStatus vendorFlow (vendorFlow.getD i "") = vendorFlow.getD (i + 1) "") ∧
    jsGetNextStatus captainFlow "pending" = "accepted" ∧
    jsGetNextStatus vendorFlow "pending" = "accepted" ∧
    jsGetNextStatus captainFlow "completed" = "completed" ∧
    jsGetNextStatus vendorFlow "delivered" = "delivered" := by
  refine ⟨?_, ?_, by decide, by decide, by decide, by decide⟩
  · intro i hi
    have hi6 : i < 5 := by simp [captainFlow] at hi; omega
    interval_cases i <;> decide
  · intro i hi
    have hi5 : i < 4 := by simp [vendorFlow] at hi; omega
    interval_cases i <;> decide

theorem c7_witness :
    0 + 1 < captainFlow.length ∧
    jsGetNextStatus captainFlow (captainFlow.getD 0 "") = captainFlow.getD (0 + 1) "" :=
  ⟨by decide, c7_advance_one_step.1 0 (by decide)⟩

/-- C8: if the `kot/all-items` fetch fails, `handlePrintKot` aborts — nothing
is printed and no mark-printed update is issued; and conversely printing only
ever happens after a successful all-items fetch. -/
theorem c8_fetch_failure_aborts :
    (∀ (hasTarget : Bool) (fetchUnprinted : Except Unit (List RawItem)),
      (handlePrintKot hasTarget (Except.error ()) fetchUnprinted).printed = false ∧
      (handlePrintKot hasTarget (Except.error ()) fetchUnprinted).markPrintedIssued = false) ∧
    (∀ (hasTarget : Bool) (fetchAllItems fetchUnprinted : Except Unit (List RawItem)),
      (handlePrintKot hasTarget fetchAllItems fetchUnprinted).printed = true →
      ∃ l, fetchAllItems = Except.ok l) := by
  constructor
  · intro ht fu
    cases ht <;> exact ⟨rfl, rfl⟩
  · intro ht fa fu h
    cases fa with
    | ok l => exact ⟨l, rfl⟩
    | error e => cases ht <;> simp [handlePrintKot] at h

theorem c8_witness :
    (handlePrintKot true (Except.ok [emptyRaw]) (Except.ok [])).printed = true ∧
    ∃ l, (Except.ok [emptyRaw] : Except Unit (List RawItem)) = Except.ok l :=
  ⟨rfl, c8_fetch_failure_aborts.2 true (Except.ok [emptyRaw]) (Except.ok []) rfl⟩

/-- C9: an unparseable JSON items payload, or one that parses to a non-array,
yields an empty canonical item list in the vendor reconciler and an empty
display list in the captain dashboard parser — never an error. -/
theorem c9_malformed_payload_empty (cat : Option CatDefault) :
    parseOrderItems cat ItemsPayload.strBad = [] ∧
    parseOrderItems cat ItemsPayload.strNonArr = [] ∧
    parseOrderItemsForDisplay ItemsPayload.strBad = [] ∧
    parseOrderItemsForDisplay ItemsPayload.strNonArr = [] :=
  ⟨rfl, rfl, rfl, rfl⟩

theorem findIdx?_eq_none_of_not_mem (l : List String) (s : String) (h : s ∉ l) :
    l.findIdx? (fun x => x == s) = none := by
  induction l with
  | nil => rfl
  | cons a t ih =>
    have ha : ¬ a = s := fun hh => h (hh ▸ List.mem_cons_self a t)
    have ht : s ∉ t := fun hh => h (List.mem_cons_of_mem a hh)
    rw [List.findIdx?_cons]
    simp [ha, ih ht]

/-- C10: for a status outside the flow, `indexOf` gives -1, so
`flow[-1 + 1] || current` reads `flow[0]` — `getNextStatus` returns
`"pending"` (the first flow element) rather than the current status; in
particular `"completed"` under the vendor flow and `"out_for_delivery"`
under the captain dining flow are reset to `"pending"`. -/
theorem c10_unknown_status_resets (s : String) :
    (s ∉ vendorFlow → jsGetNextStatus vendorFlow s = "pending") ∧
    (s ∉ captainFlow → jsGetNextStatus captainFlow s = "pending") ∧
    jsGetNextStatus vendorFlow "completed" = "pending" ∧
    jsGetNextStatus captainFlow "out_for_delivery" = "pending" := by
  refine ⟨?_, ?_, by decide, by decide⟩
  · intro h
    unfold jsGetNextStatus
    rw [findIdx?_eq_none_of_not_mem _ _ h]
    simp [vendorFlow]
  · intro h
    unfold jsGetNextStatus
    rw [findIdx?_eq_none_of_not_mem _ _ h]
    simp [captainFlow]

theorem c10_witness :
    "out_for_delivery" ∉ vendorFlow ∧ "out_for_delivery" ∉ captainFlow ∧
    jsGetNextStatus vendorFlow "out_for_delivery" = "pending" ∧
    jsGetNextStatus captainFlow "out_for_delivery" = "pending" :=
  ⟨by decide, by decide, (c10_unknown_status_resets "out_for_delivery").1 (by decide),
   (c10_unknown_status_resets "out_for_delivery").2.1 (by decide)⟩
